import Mathlib

/-!
# Shadowfax: physical constants (`Physics.cpp`) and initial-condition regions (`ICRegion.hpp`)

A shallow embedding of the parts of Shadowfax that the verified properties are about.

Numbers. Every finite `double` is a rational number, so `double` values are embedded as `ℚ`
and arithmetic is exact (rounding, infinities and NaN are outside the model). Decimal literals
of the source are read as the decimal fractions they denote.

Stateful code is embedded by explicit state passing: a method that writes to a restart file
or draws from the random generator takes the state and returns the new one.
-/

namespace Shadowfax

/-! ## Collaborators of `Physics` that are declared in other files of the repository -/

/-- The three `Unit` objects that `Physics::Physics` builds for its constants:
`Gunit` ("length*length*length/mass/time/time"), `HubbleUnit` ("1/time") and the unit of the
Boltzmann constant, `Unit("energy", "J", 1.) / Unit("temperature", "K", 1.)`. -/
inductive ConstantUnit where
  | Gunit
  | HubbleUnit
  | kunit
  deriving DecidableEq, Repr

/-- A `PhysicalConstant(value, unit)`: a value in SI units together with its unit. -/
structure PhysicalConstant where
  value : ℚ
  unit : ConstantUnit
  deriving DecidableEq

/-- The `UnitSet` used internally by the simulation. Its conversion routines live in the `io/`
headers, not in `Physics.cpp`, and are taken as parameters: `to_simulation_units u v` is what
`PhysicalConstant(v, u).get_value(units)` returns, and `mass_to_amu m` is what
`UnitConverter(units.get_mass_unit(), UnitDefinitions::get_unit("amu")).convert(m)` returns. -/
structure UnitSet where
  to_simulation_units : ConstantUnit → ℚ → ℚ
  mass_to_amu : ℚ → ℚ

/-- `PhysicalConstant::get_value(units)`: the value of the constant in the given unit set. -/
def PhysicalConstant.get_value (c : PhysicalConstant) (units : UnitSet) : ℚ :=
  units.to_simulation_units c.unit c.value

/-- A `ParameterFile` as `Physics` uses it: `check_parameter(name)` yields a `bool` and
`get_quantity(name, quantity, default_value)` yields a `double`. The class is declared in
`ParameterFile.hpp`, so both look-ups are parameters; `D` is the type of the default value
(the macro `PHYSICS_DEFAULT_MEANMOLWEIGHT`, declared in `Physics.hpp`). -/
structure ParameterFile (D : Type) where
  check_parameter : String → Bool
  get_quantity : String → String → D → ℚ

/-- The implicit C++ conversion of a `bool` argument passed for a `double` parameter. -/
def bool_to_double (b : Bool) : ℚ :=
  if b then 1 else 0

/-- The implicit C++ conversion of a `double` argument passed for a `bool` parameter:
every non-zero value converts to `true`. -/
def double_to_bool (x : ℚ) : Bool :=
  decide (x ≠ 0)

/-- Modelled from the spec: `RestartFile` is declared in another header and the specification
only names the "restart-file serialization of physical constants". It is modelled as a
sequential file of values: `contents` is what has been written so far and `cursor` is the
position of the next value to be read. -/
structure RestartFile where
  contents : List ℚ
  cursor : ℕ
  deriving DecidableEq

/-- Modelled from the spec: `RestartFile::write(value)` appends one value to the file. -/
def RestartFile.write (rfile : RestartFile) (value : ℚ) : RestartFile :=
  { rfile with contents := rfile.contents ++ [value] }

/-- Modelled from the spec: `RestartFile::read(value)` reads the value under the cursor and
moves the cursor one value further; there is no result when the cursor is at the end. -/
def RestartFile.read (rfile : RestartFile) : Option (ℚ × RestartFile) :=
  match rfile.contents.get? rfile.cursor with
  | some value => some (value, { rfile with cursor := rfile.cursor + 1 })
  | none => none

/-! ## `Physics` -/

/-- The data members of `Physics`: the constants in simulation units. -/
structure Physics where
  _G : ℚ
  _H0 : ℚ
  _mean_mol_weight : ℚ
  _boltzmann_k : ℚ
  deriving DecidableEq

/-- The gravitational constant in SI units, `6.674e-11`. -/
def G_SI : ℚ := 6674 / 10 ^ 14

/-- The Hubble constant (100 km/s/Mpc) in SI units, `3.24077929e-18`. -/
def H_SI : ℚ := 324077929 / 10 ^ 26

/-- The Boltzmann constant in SI units, `1.38064852e-23`. -/
def k_SI : ℚ := 138064852 / 10 ^ 31

/-- `Physics::Physics(UnitSet& units, double mean_mol_weight, bool real_units)`. -/
def Physics.new (units : UnitSet) (mean_mol_weight : ℚ) (real_units : Bool) : Physics :=
  let Gval : ℚ := if real_units then G_SI else 1
  let G : PhysicalConstant := ⟨Gval, ConstantUnit.Gunit⟩
  let H : PhysicalConstant := ⟨H_SI, ConstantUnit.HubbleUnit⟩
  let kval : ℚ := k_SI
  let k : PhysicalConstant := ⟨kval, ConstantUnit.kunit⟩
  { _G := G.get_value units
    _H0 := H.get_value units
    _mean_mol_weight := units.mass_to_amu mean_mol_weight
    _boltzmann_k := k.get_value units }

/-- `Physics::Physics(UnitSet& units, ParameterFile* parameters)`: delegates to the main
constructor with the arguments in the order in which the source writes them, first
`check_parameter("Physics.RealPhysics")` (a `bool` passed for `double mean_mol_weight`), then
`get_quantity("Physics.MeanMolWeight", "mass", PHYSICS_DEFAULT_MEANMOLWEIGHT)` (a `double`
passed for `bool real_units`). -/
def Physics.new_from_parameters {D : Type} (units : UnitSet) (parameters : ParameterFile D)
    (PHYSICS_DEFAULT_MEANMOLWEIGHT : D) : Physics :=
  Physics.new units
    (bool_to_double (parameters.check_parameter "Physics.RealPhysics"))
    (double_to_bool
      (parameters.get_quantity "Physics.MeanMolWeight" "mass" PHYSICS_DEFAULT_MEANMOLWEIGHT))

/-- `Physics::get_gravitational_constant()`. -/
def Physics.get_gravitational_constant (self : Physics) : ℚ := self._G

/-- `Physics::get_Hubble_constant()`. -/
def Physics.get_Hubble_constant (self : Physics) : ℚ := self._H0

/-- `Physics::get_mean_mol_weight()`. -/
def Physics.get_mean_mol_weight (self : Physics) : ℚ := self._mean_mol_weight

/-- `Physics::get_boltzmann_k()`. -/
def Physics.get_boltzmann_k (self : Physics) : ℚ := self._boltzmann_k

/-- `Physics::dump(RestartFile& rfile)`: four writes. The result is the object after the call
together with the file after the call. -/
def Physics.dump (self : Physics) (rfile : RestartFile) : Physics × RestartFile :=
  let rfile := rfile.write self._G
  let rfile := rfile.write self._H0
  let rfile := rfile.write self._mean_mol_weight
  let rfile := rfile.write self._boltzmann_k
  (self, rfile)

/-- `Physics::Physics(RestartFile& rfile)`: four reads into the four data members. The result is
the object built together with the file after the call, or nothing when a read fails. -/
def Physics.new_from_restart (rfile : RestartFile) : Option (Physics × RestartFile) :=
  match rfile.read with
  | none => none
  | some (G, rfile) =>
    match rfile.read with
    | none => none
    | some (H0, rfile) =>
      match rfile.read with
      | none => none
      | some (mean_mol_weight, rfile) =>
        match rfile.read with
        | none => none
        | some (boltzmann_k, rfile) =>
          some ({ _G := G, _H0 := H0, _mean_mol_weight := mean_mol_weight,
                  _boltzmann_k := boltzmann_k }, rfile)

/-! ## Inputs used to evaluate the `Physics` constructors -/

/-- The atomic mass unit in kilogram, `1.66053904e-27`. -/
def amu_in_kg : ℚ := 166053904 / 10 ^ 35

/-- A unit set whose units are the SI units: constants keep their SI value and a mass in
kilogram is divided by the atomic mass unit. -/
def SI_units : UnitSet :=
  { to_simulation_units := fun _ value => value
    mass_to_amu := fun mass => mass / amu_in_kg }

/-- A parameter file with `Physics.RealPhysics` switched off and `Physics.MeanMolWeight` set to
`1.219 amu` (returned by `get_quantity` in SI units, kilogram). -/
def idealized_parameters : ParameterFile ℚ :=
  { check_parameter := fun _ => false
    get_quantity := fun name _ default_value =>
      if name = "Physics.MeanMolWeight" then 1219 / 1000 * amu_in_kg else default_value }

/-! ## `ICRegion`

`ICRegion.hpp` declares the data members and the public interface of a region; the bodies of
the member functions are in `ICRegion.cpp`. The structure below follows the header. -/

/-- Modelled from the spec: `Vec` (declared in `Vec.hpp`) is the "3-component real vector
type" of the specification. -/
structure Vec where
  x : ℚ
  y : ℚ
  z : ℚ
  deriving DecidableEq

/-- Modelled from the spec: `StateVector` (declared in `StateVector.hpp`) is the
"physical-state aggregate (density, velocity components, pressure-like scalar)". -/
structure StateVector where
  rho : ℚ
  vx : ℚ
  vy : ℚ
  vz : ℚ
  p : ℚ
  deriving DecidableEq

/-- Component number `i` of a state, in the order density, velocity x, velocity y,
velocity z, pressure. -/
def StateVector.component (state : StateVector) (i : ℕ) : ℚ :=
  match i with
  | 0 => state.rho
  | 1 => state.vx
  | 2 => state.vy
  | 3 => state.vz
  | _ => state.p

/-- Modelled from the spec: a `SymbolicFunction` is a "scalar density function", an object
"exposing `evaluate(position) -> real`, deterministic, side-effect-free". -/
abbrev SymbolicFunction : Type := Vec → ℚ

/-- The data members of `ICRegion`, as the header declares them. -/
structure ICRegion where
  _exponent : ℚ
  _origin : Vec
  _sides : Vec
  _hydrofunctions : List SymbolicFunction
  _dmfunction : List SymbolicFunction
  _max_value_hydro : ℚ
  _max_value_dm : ℚ
  _volume : ℚ

/-- Modelled from the spec: the "process-wide random generator" from which the accept tests
draw uniform numbers in [0,1). Its state is the sequence of numbers it is going to produce
and the count of numbers already consumed. -/
structure RandomSource where
  draws : ℕ → ℚ
  consumed : ℕ

/-- Modelled from the spec: one draw from the random source, the number drawn together with
the state of the source after the draw. -/
def RandomSource.rand_double (random : RandomSource) : ℚ × RandomSource :=
  (random.draws random.consumed, { random with consumed := random.consumed + 1 })

/-- Modelled from the spec: the body of `ICRegion::accept_hydro` is in `ICRegion.cpp`; by the
specification it "draws one uniform random number `u` in [0,1) and returns
`u * M <= f(position)`" with `M` the cached `max_value_hydro` and `f` the first hydro
function. There is no result for a region without a hydro function. -/
def ICRegion.accept_hydro (self : ICRegion) (position : Vec) (random : RandomSource) :
    Option (Bool × RandomSource) :=
  match self._hydrofunctions with
  | [] => none
  | f :: _ =>
    let (u, random) := random.rand_double
    some (decide (u * self._max_value_hydro ≤ f position), random)

/-- Modelled from the spec: the body of `ICRegion::accept_dm` is in `ICRegion.cpp`; by the
specification it draws one number `u` and returns `u * M <= f(position)` with `M` the cached
`max_value_dm` and `f` the dark-matter function. There is no result for a region without a
dark-matter function. -/
def ICRegion.accept_dm (self : ICRegion) (position : Vec) (random : RandomSource) :
    Option (Bool × RandomSource) :=
  match self._dmfunction with
  | [] => none
  | f :: _ =>
    let (u, random) := random.rand_double
    some (decide (u * self._max_value_dm ≤ f position), random)

/-- Modelled from the spec: the results of the hydro functions assembled "in declared order,
into the physical-state aggregate (density, velocity components, pressure-like scalar)".
The aggregate has five components, so five results are needed. -/
def StateVector.assemble (values : List ℚ) : Option StateVector :=
  match values with
  | [rho, vx, vy, vz, p] => some { rho := rho, vx := vx, vy := vy, vz := vz, p := p }
  | _ => none

/-- Modelled from the spec: the body of `ICRegion::get_hydro` is in `ICRegion.cpp`; by the
specification it "evaluates every function in `hydro_functions` at `position` and assembles
the results, in declared order, into the physical-state aggregate". -/
def ICRegion.get_hydro (self : ICRegion) (position : Vec) : Option StateVector :=
  StateVector.assemble (self._hydrofunctions.map (fun f => f position))

/-! ## The loops of `test_NDIrregTable` -/

/-- The values taken by the counter of `for(double c = start; c < bound; c += step)`, at most
`fuel` of them. -/
def for_values (fuel : ℕ) (start bound step : ℚ) : List ℚ :=
  match fuel with
  | 0 => []
  | fuel + 1 =>
    if start < bound then start :: for_values fuel (start + step) bound step else []

/-- The triples `(i, j, k)` at which `test_NDIrregTable` compares `i + j + k` with
`table.get_value({i, j, pow(10., k)})`, in the order of the three nested loops. -/
def test_NDIrregTable_points (fuel : ℕ) : List (ℚ × ℚ × ℚ) :=
  (for_values fuel (-5) 10 (47 / 10)).flatMap fun i =>
    (for_values fuel (-5) 10 (47 / 10)).flatMap fun j =>
      (for_values fuel 0 15 (47 / 10)).map fun k => (i, j, k)

/-! ## Inputs used to evaluate `ICRegion` -/

/-- The origin of space. -/
def Vec.zero : Vec := { x := 0, y := 0, z := 0 }

/-- A region around the origin with five hydro functions (density `1 + x`, velocity
`(y, z, 0)`, pressure `2`) and one dark-matter function. -/
def sample_region : ICRegion :=
  { _exponent := 2
    _origin := Vec.zero
    _sides := { x := 2, y := 2, z := 2 }
    _hydrofunctions := [fun v => 1 + v.x, fun v => v.y, fun v => v.z, fun _ => 0, fun _ => 2]
    _dmfunction := [fun v => 3 - v.x]
    _max_value_hydro := 2
    _max_value_dm := 4
    _volume := 4 }

/-- A region whose density function is identically zero and whose cached maximum is zero. -/
def empty_region : ICRegion :=
  { sample_region with
    _hydrofunctions := [fun _ => 0, fun _ => 0, fun _ => 0, fun _ => 0, fun _ => 0]
    _max_value_hydro := 0 }

/-- A random source that produces `1/2, 1/3, 1/4, ...`. -/
def sample_random : RandomSource :=
  { draws := fun n => 1 / ((n : ℚ) + 2)
    consumed := 0 }

/-- A `Physics` object in SI units with a mean molecular weight of one atomic mass unit. -/
def sample_physics : Physics :=
  Physics.new SI_units amu_in_kg true

/-- A restart file that already holds two values written by another object. -/
def sample_restart_file : RestartFile :=
  { contents := [7, 11], cursor := 0 }

/-- The file `sample_restart_file` after `sample_physics` and then another object have been
dumped to it, reopened with the cursor where the dump of `sample_physics` starts. -/
def sample_reopened_file : RestartFile :=
  { contents := (sample_physics.dump sample_restart_file).2.contents ++ [13]
    cursor := 2 }

/-! ## Properties of `Physics` -/

theorem get?_append_add {α : Type} (before l : List α) (i : ℕ) :
    (before ++ l).get? (before.length + i) = l.get? i := by
  rw [List.get?_eq_getElem?, List.get?_eq_getElem?,
    List.getElem?_append_right (Nat.le_add_right _ _), Nat.add_sub_cancel_left]

theorem RestartFile.read_eq_of_get (rfile : RestartFile) (value : ℚ)
    (h : rfile.contents.get? rfile.cursor = some value) :
    rfile.read = some (value, { rfile with cursor := rfile.cursor + 1 }) := by
  unfold RestartFile.read
  rw [h]

theorem Physics.dump_contents (P : Physics) (rfile : RestartFile) :
    (P.dump rfile).2.contents =
      rfile.contents ++ [P._G, P._H0, P._mean_mol_weight, P._boltzmann_k] := by
  simp [Physics.dump, RestartFile.write]

/-- The restart constructor applied to a file whose contents are `before`, then the four
values `G, H0, m, k`, then `after`, with the cursor behind `before`. -/
theorem Physics.new_from_restart_eq (before after : List ℚ) (G H0 m k : ℚ)
    (rfile : RestartFile) (hc : rfile.contents = before ++ [G, H0, m, k] ++ after)
    (hp : rfile.cursor = before.length) :
    Physics.new_from_restart rfile =
      some ({ _G := G, _H0 := H0, _mean_mol_weight := m, _boltzmann_k := k },
            { rfile with cursor := before.length + 4 }) := by
  obtain ⟨contents, cursor⟩ := rfile
  simp only at hc hp
  subst hc hp
  have h0 : (before ++ [G, H0, m, k] ++ after).get? before.length = some G := by
    simpa using get?_append_add before ([G, H0, m, k] ++ after) 0
  have h1 : (before ++ [G, H0, m, k] ++ after).get? (before.length + 1) = some H0 := by
    simpa using get?_append_add before ([G, H0, m, k] ++ after) 1
  have h2 : (before ++ [G, H0, m, k] ++ after).get? (before.length + 1 + 1) = some m := by
    simpa [Nat.add_assoc] using get?_append_add before ([G, H0, m, k] ++ after) 2
  have h3 : (before ++ [G, H0, m, k] ++ after).get? (before.length + 1 + 1 + 1) = some k := by
    simpa [Nat.add_assoc] using get?_append_add before ([G, H0, m, k] ++ after) 3
  unfold Physics.new_from_restart
  rw [RestartFile.read_eq_of_get _ G h0]
  simp only
  rw [RestartFile.read_eq_of_get _ H0 h1]
  simp only
  rw [RestartFile.read_eq_of_get _ m h2]
  simp only
  rw [RestartFile.read_eq_of_get _ k h3]

/-- C10. Restart round trip of `Physics`: `dump` leaves the object unchanged and appends
exactly four values to the file, in the order G, H0, mean molecular weight, Boltzmann k; the
restart constructor applied to a file positioned at these values reads exactly four values and
builds an object whose four getters return the same values as those of the dumped object. -/
theorem Physics_restart_round_trip (P : Physics) (written : RestartFile) (later : List ℚ)
    (rfile : RestartFile)
    (hcontents : rfile.contents = (P.dump written).2.contents ++ later)
    (hcursor : rfile.cursor = written.contents.length) :
    (P.dump written).1 = P ∧
    (P.dump written).2.contents =
      written.contents ++ [P.get_gravitational_constant, P.get_Hubble_constant,
        P.get_mean_mol_weight, P.get_boltzmann_k] ∧
    (P.dump written).2.cursor = written.cursor ∧
    ∃ Q rest, Physics.new_from_restart rfile = some (Q, rest) ∧
      Q.get_gravitational_constant = P.get_gravitational_constant ∧
      Q.get_Hubble_constant = P.get_Hubble_constant ∧
      Q.get_mean_mol_weight = P.get_mean_mol_weight ∧
      Q.get_boltzmann_k = P.get_boltzmann_k ∧
      rest.contents = rfile.contents ∧
      rest.cursor = rfile.cursor + 4 := by
  refine ⟨rfl, Physics.dump_contents P written, rfl, ?_⟩
  rw [Physics.dump_contents] at hcontents
  rw [Physics.new_from_restart_eq written.contents later P._G P._H0 P._mean_mol_weight
    P._boltzmann_k rfile hcontents hcursor]
  exact ⟨_, _, rfl, rfl, rfl, rfl, rfl, rfl, by simp [hcursor]⟩

/-- The round trip of C10 at `sample_physics`, dumped behind two earlier values and followed by
one later value. -/
theorem Physics_restart_round_trip_witness :
    ∃ Q rest, Physics.new_from_restart sample_reopened_file = some (Q, rest) ∧
      Q.get_gravitational_constant = sample_physics.get_gravitational_constant ∧
      Q.get_Hubble_constant = sample_physics.get_Hubble_constant ∧
      Q.get_mean_mol_weight = sample_physics.get_mean_mol_weight ∧
      Q.get_boltzmann_k = sample_physics.get_boltzmann_k ∧
      rest.contents = sample_reopened_file.contents ∧
      rest.cursor = sample_reopened_file.cursor + 4 :=
  (Physics_restart_round_trip sample_physics sample_restart_file [13] sample_reopened_file
    rfl rfl).2.2.2

/-- What the `ParameterFile` constructor passes on, for every unit set and parameter file: the
flag `Physics.RealPhysics` (as 0 or 1) in the place of the mean molecular weight, and whether
the quantity `Physics.MeanMolWeight` is non-zero in the place of the flag. -/
theorem Physics.new_from_parameters_eq {D : Type} (units : UnitSet)
    (parameters : ParameterFile D) (default_value : D) :
    Physics.new_from_parameters units parameters default_value =
      Physics.new units
        (if parameters.check_parameter "Physics.RealPhysics" then 1 else 0)
        (decide (parameters.get_quantity "Physics.MeanMolWeight" "mass" default_value ≠ 0)) :=
  rfl

/-- C6. The `ParameterFile` constructor evaluated on a parameter file with
`Physics.RealPhysics` off and `Physics.MeanMolWeight = 1.219 amu`: the object it builds has the
SI value of the gravitational constant and a mean molecular weight of zero, whereas the main
constructor called with the quantity as `mean_mol_weight` and the flag as `real_units` gives
the gravitational constant 1 and the mean molecular weight 1.219. -/
theorem Physics_new_from_parameters_swaps_arguments :
    (Physics.new_from_parameters SI_units idealized_parameters 0).get_gravitational_constant
        = G_SI ∧
    (Physics.new_from_parameters SI_units idealized_parameters 0).get_mean_mol_weight = 0 ∧
    (Physics.new SI_units
        (idealized_parameters.get_quantity "Physics.MeanMolWeight" "mass" 0)
        (idealized_parameters.check_parameter "Physics.RealPhysics")).get_gravitational_constant
        = 1 ∧
    (Physics.new SI_units
        (idealized_parameters.get_quantity "Physics.MeanMolWeight" "mass" 0)
        (idealized_parameters.check_parameter "Physics.RealPhysics")).get_mean_mol_weight
        = 1219 / 1000 ∧
    Physics.new_from_parameters SI_units idealized_parameters 0 ≠
      Physics.new SI_units
        (idealized_parameters.get_quantity "Physics.MeanMolWeight" "mass" 0)
        (idealized_parameters.check_parameter "Physics.RealPhysics") := by
  have hq : idealized_parameters.get_quantity "Physics.MeanMolWeight" "mass" 0
      = 1219 / 1000 * amu_in_kg := by
    simp [idealized_parameters]
  have hb : idealized_parameters.check_parameter "Physics.RealPhysics" = false := rfl
  have hne : (1219 / 1000 * amu_in_kg : ℚ) ≠ 0 := by
    norm_num [amu_in_kg]
  have hG : (Physics.new_from_parameters SI_units idealized_parameters 0)._G = G_SI := by
    simp [Physics.new_from_parameters, Physics.new, PhysicalConstant.get_value, SI_units,
      double_to_bool, hq, hne]
  have hG2 : (Physics.new SI_units
        (idealized_parameters.get_quantity "Physics.MeanMolWeight" "mass" 0)
        (idealized_parameters.check_parameter "Physics.RealPhysics"))._G = 1 := by
    simp [Physics.new, PhysicalConstant.get_value, SI_units, hb]
  refine ⟨hG, ?_, hG2, ?_, ?_⟩
  · simp [Physics.new_from_parameters, Physics.new, Physics.get_mean_mol_weight, SI_units,
      bool_to_double, hb]
  · rw [hq]
    simp only [Physics.new, Physics.get_mean_mol_weight, SI_units]
    norm_num [amu_in_kg]
  · intro h
    have h1 := congrArg Physics._G h
    rw [hG, hG2] at h1
    norm_num [G_SI] at h1

/-- C8, as the source has it. The flag `real_units` selects the gravitational constant only:
it is the SI value `6.674e-11` converted to simulation units when the flag is set and `1`
converted to simulation units when it is not. The Hubble constant and the Boltzmann constant
are the SI values `3.24077929e-18` and `1.38064852e-23` converted to simulation units whatever
the flag is. -/
theorem Physics_real_units_selects_G_only (units : UnitSet) (mean_mol_weight : ℚ)
    (real_units : Bool) :
    (Physics.new units mean_mol_weight true).get_gravitational_constant
      = units.to_simulation_units ConstantUnit.Gunit (6674 / 10 ^ 14) ∧
    (Physics.new units mean_mol_weight false).get_gravitational_constant
      = units.to_simulation_units ConstantUnit.Gunit 1 ∧
    (Physics.new units mean_mol_weight real_units).get_Hubble_constant
      = units.to_simulation_units ConstantUnit.HubbleUnit (324077929 / 10 ^ 26) ∧
    (Physics.new units mean_mol_weight real_units).get_boltzmann_k
      = units.to_simulation_units ConstantUnit.kunit (138064852 / 10 ^ 31) := by
  refine ⟨?_, ?_, ?_, ?_⟩ <;>
    simp [Physics.new, PhysicalConstant.get_value, Physics.get_gravitational_constant,
      Physics.get_Hubble_constant, Physics.get_boltzmann_k, G_SI, H_SI, k_SI]

/-- C8, as the claim states it, fails: built in SI units with `real_units = false`, the object
holds the gravitational constant 1 but still the SI values of the Hubble constant and of the
Boltzmann constant, the same values as with `real_units = true`. -/
theorem Physics_idealized_keeps_SI_Hubble_and_Boltzmann :
    (Physics.new SI_units amu_in_kg false).get_gravitational_constant = 1 ∧
    (Physics.new SI_units amu_in_kg false).get_Hubble_constant = 324077929 / 10 ^ 26 ∧
    (Physics.new SI_units amu_in_kg false).get_boltzmann_k = 138064852 / 10 ^ 31 ∧
    (Physics.new SI_units amu_in_kg false).get_Hubble_constant
      = (Physics.new SI_units amu_in_kg true).get_Hubble_constant ∧
    (Physics.new SI_units amu_in_kg false).get_boltzmann_k
      = (Physics.new SI_units amu_in_kg true).get_boltzmann_k := by
  refine ⟨?_, ?_, ?_, rfl, rfl⟩ <;>
    simp [Physics.new, PhysicalConstant.get_value, Physics.get_gravitational_constant,
      Physics.get_Hubble_constant, Physics.get_boltzmann_k, SI_units, H_SI, k_SI]

/-! ## Properties of `ICRegion` -/

/-- C3. For every region, position and state of the random source, with `u` the next number of
the source: when the region has a first hydro function `f`, `accept_hydro` returns the truth
value of `u * M <= f(position)` with `M` the cached `_max_value_hydro`; when it has a
dark-matter function `f`, `accept_dm` returns the truth value of `u * M <= f(position)` with
`M` the cached `_max_value_dm`. Each call consumes exactly one draw and leaves the rest of the
source as it was. -/
theorem ICRegion_accept_is_rejection_test (region : ICRegion) (position : Vec)
    (random : RandomSource) :
    (∀ f others, region._hydrofunctions = f :: others →
      ∃ accepted after, region.accept_hydro position random = some (accepted, after) ∧
        (accepted = true ↔
          random.draws random.consumed * region._max_value_hydro ≤ f position) ∧
        after.consumed = random.consumed + 1 ∧ after.draws = random.draws) ∧
    (∀ f others, region._dmfunction = f :: others →
      ∃ accepted after, region.accept_dm position random = some (accepted, after) ∧
        (accepted = true ↔
          random.draws random.consumed * region._max_value_dm ≤ f position) ∧
        after.consumed = random.consumed + 1 ∧ after.draws = random.draws) := by
  constructor
  · intro f others h
    refine ⟨decide (random.draws random.consumed * region._max_value_hydro ≤ f position),
      { random with consumed := random.consumed + 1 }, ?_, ?_, rfl, rfl⟩
    · simp [ICRegion.accept_hydro, h, RandomSource.rand_double]
    · exact decide_eq_true_iff
  · intro f others h
    refine ⟨decide (random.draws random.consumed * region._max_value_dm ≤ f position),
      { random with consumed := random.consumed + 1 }, ?_, ?_, rfl, rfl⟩
    · simp [ICRegion.accept_dm, h, RandomSource.rand_double]
    · exact decide_eq_true_iff

/-- The accept tests of C3 at `sample_region`, the origin and a fresh `sample_random`. -/
theorem ICRegion_accept_is_rejection_test_witness :
    (∃ accepted after,
      sample_region.accept_hydro Vec.zero sample_random = some (accepted, after) ∧
        (accepted = true ↔
          sample_random.draws sample_random.consumed * sample_region._max_value_hydro
            ≤ (fun v : Vec => 1 + v.x) Vec.zero) ∧
        after.consumed = sample_random.consumed + 1 ∧ after.draws = sample_random.draws) ∧
    (∃ accepted after,
      sample_region.accept_dm Vec.zero sample_random = some (accepted, after) ∧
        (accepted = true ↔
          sample_random.draws sample_random.consumed * sample_region._max_value_dm
            ≤ (fun v : Vec => 3 - v.x) Vec.zero) ∧
        after.consumed = sample_random.consumed + 1 ∧ after.draws = sample_random.draws) :=
  ⟨(ICRegion_accept_is_rejection_test sample_region Vec.zero sample_random).1 _ _ rfl,
   (ICRegion_accept_is_rejection_test sample_region Vec.zero sample_random).2 _ _ rfl⟩

/-- C5. For a region whose hydro functions are, in declared order, `f_density, f_vx, f_vy,
f_vz, f_pressure`, `get_hydro(position)` returns the state with density
`f_density(position)`, velocity `(f_vx(position), f_vy(position), f_vz(position))` and
pressure `f_pressure(position)`: component number `i` is the value of function number `i`, with
no clamping. The call is a function of the region and the position alone. -/
theorem ICRegion_get_hydro_in_declared_order (region : ICRegion) (position : Vec)
    (f_density f_vx f_vy f_vz f_pressure : SymbolicFunction)
    (h : region._hydrofunctions = [f_density, f_vx, f_vy, f_vz, f_pressure]) :
    region.get_hydro position =
      some { rho := f_density position, vx := f_vx position, vy := f_vy position,
             vz := f_vz position, p := f_pressure position } ∧
    ∃ state, region.get_hydro position = some state ∧
      ∀ i f, region._hydrofunctions.get? i = some f → state.component i = f position := by
  have hstate : region.get_hydro position =
      some { rho := f_density position, vx := f_vx position, vy := f_vy position,
             vz := f_vz position, p := f_pressure position } := by
    simp [ICRegion.get_hydro, h, StateVector.assemble]
  refine ⟨hstate, _, hstate, ?_⟩
  intro i f hi
  rw [h] at hi
  match i, hi with
  | 0, hi => simp at hi; simp [StateVector.component, hi]
  | 1, hi => simp at hi; simp [StateVector.component, hi]
  | 2, hi => simp at hi; simp [StateVector.component, hi]
  | 3, hi => simp at hi; simp [StateVector.component, hi]
  | 4, hi => simp at hi; simp [StateVector.component, hi]
  | n + 5, hi => simp at hi

/-- The state of C5 at `sample_region` and the origin: density 1, velocity 0, pressure 2. -/
theorem ICRegion_get_hydro_in_declared_order_witness :
    sample_region.get_hydro Vec.zero =
      some { rho := (fun v : Vec => 1 + v.x) Vec.zero, vx := (fun v : Vec => v.y) Vec.zero,
             vy := (fun v : Vec => v.z) Vec.zero, vz := (fun _ : Vec => (0 : ℚ)) Vec.zero,
             p := (fun _ : Vec => (2 : ℚ)) Vec.zero } :=
  (ICRegion_get_hydro_in_declared_order sample_region Vec.zero _ _ _ _ _ rfl).1

/-- For a region with cached maximum zero, the accept test accepts wherever the density is
zero, whatever number is drawn: `u * 0 <= 0` holds. -/
theorem ICRegion.accept_hydro_of_zero_maximum (region : ICRegion) (position : Vec)
    (random : RandomSource) (f : SymbolicFunction) (others : List SymbolicFunction)
    (hf : region._hydrofunctions = f :: others) (hzero : f position = 0)
    (hmax : region._max_value_hydro = 0) :
    region.accept_hydro position random =
      some (true, { random with consumed := random.consumed + 1 }) := by
  simp [ICRegion.accept_hydro, hf, hzero, hmax, RandomSource.rand_double]

/-- The accept test at `empty_region`, whose density and cached maximum are zero: the first
draw is consumed and the position is accepted. -/
theorem ICRegion.accept_hydro_empty_region :
    empty_region.accept_hydro Vec.zero sample_random =
      some (true, { sample_random with consumed := 1 }) :=
  ICRegion.accept_hydro_of_zero_maximum empty_region Vec.zero sample_random _ _ rfl rfl rfl

/-! ## Properties of the loops of `test_NDIrregTable` -/

/-- With the step 4.7, a loop from -5 while below 10 visits -5, -0.3, 4.4 and 9.1. -/
theorem for_values_first_two_coordinates (n : ℕ) :
    for_values (n + 4) (-5) 10 (47 / 10) = [-5, -3 / 10, 22 / 5, 91 / 10] := by
  cases n <;> norm_num [for_values]

/-- With the step 4.7, a loop from 0 while below 15 visits 0, 4.7, 9.4 and 14.1. -/
theorem for_values_third_coordinate (n : ℕ) :
    for_values (n + 4) 0 15 (47 / 10) = [0, 47 / 10, 47 / 5, 141 / 10] := by
  cases n <;> norm_num [for_values]

/-- The three nested loops of `test_NDIrregTable` end after 4 * 4 * 4 = 64 comparisons. -/
theorem test_NDIrregTable_points_length (n : ℕ) :
    (test_NDIrregTable_points (n + 4)).length = 64 := by
  simp [test_NDIrregTable_points, for_values_first_two_coordinates,
    for_values_third_coordinate]

end Shadowfax
